import Mathlib

/-!
Shallow embedding of the large-prime generation engine of
`KaiserAce/large-primes` (`src/main.rs`) and proofs about it.

Modelling conventions:
* `BigUint` values are `Nat`.
* The thread-local RNG is an explicit stream `s : Nat → Nat` of raw draws;
  `rng.gen_biguint_range(&lo, &hi)` at stream position `i` is modelled as
  `lo + s i % (hi - lo)`, which ranges over exactly `[lo, hi)` when `lo < hi`.
* Unbounded `loop`s take a fuel argument; running out of fuel yields
  `Outcome.spin` ("still looping"), which no theorem counts as a result.
* A Rust panic (process abort) is `Outcome.crash`.
* `probable_prime_check` calls `num_prime::is_prime` (an external library)
  and the deterministic check shells out to PARI/GP: both are modelled as
  oracle parameters (`pp : Nat → Bool`, and the gp process as
  `gp : Nat → Option String`, `none` = the process could not be launched,
  `some out` = it ran and produced stdout `out`).
-/

/-- Result of running a piece of Rust code that may loop forever or panic. -/
inductive Outcome (α : Type) where
  | ok : α → Outcome α
  | crash : Outcome α
  | spin : Outcome α
deriving DecidableEq, Repr

/-- Rust's `str::trim`: strip leading and trailing whitespace. -/
def rustTrim (str : String) : String :=
  String.mk (((str.data.dropWhile Char.isWhitespace).reverse.dropWhile
    Char.isWhitespace).reverse)

/-- The `SMALL_PRIMES` table from `src/main.rs` (201 entries, first one 2). -/
def SMALL_PRIMES : List Nat := [
  2, 3, 5, 7, 11, 13, 17, 19, 23, 29, 31, 37, 41, 43, 47, 53, 59, 61, 67, 71,
  73, 79, 83, 89, 97,
  101, 103, 107, 109, 113, 127, 131, 137, 139, 149, 151, 157, 163, 167, 173,
  179, 181, 191, 193,
  197, 199, 211, 223, 227, 229, 233, 239, 241, 251, 257, 263, 269, 271, 277,
  281, 283, 293, 307,
  311, 313, 317, 331, 337, 347, 349, 353, 359, 367, 373, 379, 383, 389, 397,
  401, 409, 419, 421,
  431, 433, 439, 443, 449, 457, 461, 463, 467, 479, 487, 491, 499, 503, 509,
  521, 523, 541, 547,
  557, 563, 569, 571, 577, 587, 593, 599, 601, 607, 613, 617, 619, 631, 641,
  643, 647, 653, 659,
  661, 673, 677, 683, 691, 701, 709, 719, 727, 733, 739, 743, 751, 757, 761,
  769, 773, 787, 797,
  809, 811, 821, 823, 827, 829, 839, 853, 857, 859, 863, 877, 881, 883, 887,
  907, 911, 919, 929,
  937, 941, 947, 953, 967, 971, 977, 983, 991, 997, 1009, 1013, 1019, 1021,
  1031, 1033, 1039,
  1049, 1051, 1061, 1063, 1069, 1087, 1091, 1093, 1097, 1103, 1109, 1117,
  1123, 1129, 1151, 1153,
  1163, 1171, 1181, 1187, 1193, 1201, 1213, 1217, 1223, 1229]

/-- `sieve_check` from `src/main.rs`: iterate over `SMALL_PRIMES.iter().skip(1)`
and reject when `candidate % p == 0 && candidate != p`. -/
def sieve_check (candidate : Nat) : Bool :=
  (SMALL_PRIMES.drop 1).all fun p => !(candidate % p == 0 && candidate != p)

/-- The `loop` body of `generate_prime_candidate`: draw `num` in
`[lower, upper)`; if even, add one and return it only when still `< upper`,
otherwise `continue`; odd draws are returned as they are.  Returns the value
and the next stream position. -/
def genCandidateLoop (lower upper : Nat) (s : Nat → Nat) :
    Nat → Nat → Outcome (Nat × Nat)
  | _, 0 => .spin
  | i, fuel + 1 =>
    let num := lower + s i % (upper - lower)
    if num % 2 = 0 then
      let odd_num := num + 1
      if odd_num < upper then .ok (odd_num, i + 1)
      else genCandidateLoop lower upper s (i + 1) fuel
    else .ok (num, i + 1)

/-- `generate_prime_candidate` from `src/main.rs`.  It computes
`lower = 10^(digits as u32 - 1)` and `upper = 10^(digits as u32)`, where
`digits : usize` is truncated by the `as u32` cast: the effective digit
count is `digits % 2^32`.  When that truncated count is `0` (so for
`digits = 0` and for every multiple of `2^32`) the `u32` subtraction
overflows, which panics in a debug build, and in a release build wraps so
that `lower > upper` and `gen_biguint_range` panics — either way the call
crashes before any candidate is produced. -/
def generate_prime_candidate (digits : Nat) (s : Nat → Nat) (i fuel : Nat) :
    Outcome (Nat × Nat) :=
  if digits % 2 ^ 32 = 0 then .crash
  else genCandidateLoop (10 ^ (digits % 2 ^ 32 - 1)) (10 ^ (digits % 2 ^ 32))
    s i fuel

/-- `deterministic_prime_check` from `src/main.rs`, with its file-system
effect.  The call writes `temp_prime_check.gp`, runs `gp` on it
(`gp candidate = none` models `Command::output()` failing, in which case
`.expect("Failed to run PARI/GP")` panics before `fs::remove_file` runs),
removes the script, and compares the trimmed stdout with `"1"`.
First component: the verdict (or crash); second: whether the temporary
script file still exists after the call. -/
def deterministic_prime_check (gp : Nat → Option String) (candidate : Nat) :
    Outcome Bool × Bool :=
  match gp candidate with
  | none => (.crash, true)
  | some out => (.ok (rustTrim out == "1"), false)

/-- `gen_rand_large_prime_sequential` from `src/main.rs`: sample a candidate,
`continue` on sieve failure, on probabilistic failure, or on a negative
deterministic verdict; return the candidate once all three stages pass.
`pp` is the `probable_prime_check` oracle, `dp` the deterministic one
(`dp c = .crash` models the gp launch failure panicking the process);
`cfuel` is the fuel handed to each candidate-sampling loop. -/
def gen_rand_large_prime_sequential (pp : Nat → Bool) (dp : Nat → Outcome Bool)
    (digits : Nat) (s : Nat → Nat) (cfuel : Nat) : Nat → Nat → Outcome Nat
  | _, 0 => .spin
  | i, fuel + 1 =>
    match generate_prime_candidate digits s i cfuel with
    | .crash => .crash
    | .spin => .spin
    | .ok (candidate, j) =>
      if sieve_check candidate then
        if pp candidate then
          match dp candidate with
          | .crash => .crash
          | .spin => .spin
          | .ok true => .ok candidate
          | .ok false => gen_rand_large_prime_sequential pp dp digits s cfuel j fuel
        else gen_rand_large_prime_sequential pp dp digits s cfuel j fuel
      else gen_rand_large_prime_sequential pp dp digits s cfuel j fuel

/-- One worker's closure inside `find_map_first` in
`gen_rand_large_prime_parallel`: load the cancellation flag (`obs` is the
value this Relaxed load returned) and give up immediately if it is set;
otherwise run the probabilistic then the deterministic stage and publish
`some c` on full certification (storing `true` into the flag).  The second
component records whether the worker started any certification work. -/
def worker_map (pp : Nat → Bool) (dp : Nat → Outcome Bool) (obs : Bool)
    (c : Nat) : Outcome (Option Nat) × Bool :=
  if obs then (.ok none, false)
  else if pp c then
    (match dp c with
     | .crash => .crash
     | .spin => .spin
     | .ok true => .ok (some c)
     | .ok false => .ok none, true)
  else (.ok none, true)

/-- Rayon's `find_map_first` over the sieved candidates: the committed result
is the `some` of smallest index among the workers' published values.
`obs t` is the flag value the worker on candidate `t` observed. -/
def find_map_first (pp : Nat → Bool) (dp : Nat → Outcome Bool)
    (obs : Nat → Bool) : Nat → List Nat → Outcome (Option Nat)
  | _, [] => .ok none
  | t, c :: cs =>
    match (worker_map pp dp (obs t) c).1 with
    | .crash => .crash
    | .spin => .spin
    | .ok (some r) => .ok (some r)
    | .ok none => find_map_first pp dp obs (t + 1) cs

/-- The candidates a round commits as its result: one on success, none
otherwise (the coordinator takes the single `Option` that
`find_map_first` returns). -/
def commits : Outcome (Option Nat) → List Nat
  | .ok (some r) => [r]
  | _ => []

/-- The `(0..num_candidates).map(|_| generate_prime_candidate(digits))`
phase of a parallel round; worker slot `k` draws from its own thread-local
stream `ss k`.  A panicking worker aborts the process. -/
def collect_candidates (digits : Nat) (ss : Nat → Nat → Nat) (cfuel : Nat) :
    Nat → Outcome (List Nat)
  | 0 => .ok []
  | k + 1 =>
    match generate_prime_candidate digits (ss k) 0 cfuel with
    | .crash => .crash
    | .spin => .spin
    | .ok (c, _) =>
      match collect_candidates digits ss cfuel k with
      | .crash => .crash
      | .spin => .spin
      | .ok l => .ok (c :: l)

/-- `gen_rand_large_prime_parallel` from `src/main.rs`.  Each round collects
`num_candidates` fresh candidates (`ss round` gives round `round`'s streams),
sieves them, and races the workers via `find_map_first`; on success the
coordinator executes `found.store(false)` and returns the prime, otherwise it
executes `found.store(false)` and starts a new round.  Besides the result the
model returns the flag value at the start of every executed round and the
final flag value, so that the reset discipline can be stated. -/
def gen_rand_large_prime_parallel (pp : Nat → Bool) (dp : Nat → Outcome Bool)
    (digits : Nat) (ss : Nat → Nat → Nat → Nat) (obsR : Nat → Nat → Bool)
    (cfuel ncand : Nat) : Bool → Nat → Nat → Outcome Nat × List Bool × Bool
  | flag, _, 0 => (.spin, [], flag)
  | flag, round, fuel + 1 =>
    match collect_candidates digits (ss round) cfuel ncand with
    | .crash => (.crash, [flag], flag)
    | .spin => (.spin, [flag], flag)
    | .ok cands =>
      match find_map_first pp dp (obsR round) 0 (cands.filter sieve_check) with
      | .crash => (.crash, [flag], flag)
      | .spin => (.spin, [flag], flag)
      | .ok (some r) => (.ok r, [flag], false)
      | .ok none =>
        match gen_rand_large_prime_parallel pp dp digits ss obsR cfuel ncand
            false (round + 1) fuel with
        | (res, trace, fl) => (res, flag :: trace, fl)

/-- `gen_rand_large_prime` from `src/main.rs`: dispatch on
`parallel_threshhold = 50`.  The parallel coordinator starts with
`AtomicBool::new(false)` at round 0; `ncand` stands for `num_cpus::get() * 4`. -/
def gen_rand_large_prime (pp : Nat → Bool) (dp : Nat → Outcome Bool)
    (digits : Nat) (s : Nat → Nat) (ss : Nat → Nat → Nat → Nat)
    (obsR : Nat → Nat → Bool) (cfuel ncand fuel : Nat) : Outcome Nat :=
  if 50 ≤ digits then
    (gen_rand_large_prime_parallel pp dp digits ss obsR cfuel ncand
      false 0 fuel).1
  else
    gen_rand_large_prime_sequential pp dp digits s cfuel 0 fuel

/-- Modelled from the spec: the Safe-Prime Constructor (spec §4.7) is not
present under `src/` — `src/main.rs` only implements the `Random` kind.
Following the spec's words: generate a certified prime `q` of size `d-1`
through the §4.5/§4.6 pipeline, compute `p = 2q + 1`, validate that `p` has
exactly `d` decimal digits and that `p` itself passes
sieve + probabilistic + deterministic certification, returning `p`, and
retry the whole derivation from scratch on any failure.  Attempt `a` uses
streams `sA a` / `ssA a` and observations `obsA a`. -/
def generate_safe_prime (pp : Nat → Bool) (dp : Nat → Outcome Bool)
    (digits : Nat) (sA : Nat → Nat → Nat) (ssA : Nat → Nat → Nat → Nat → Nat)
    (obsA : Nat → Nat → Nat → Bool) (cfuel ncand gfuel : Nat) :
    Nat → Nat → Outcome Nat
  | _, 0 => .spin
  | attempt, fuel + 1 =>
    match gen_rand_large_prime pp dp (digits - 1) (sA attempt) (ssA attempt)
        (obsA attempt) cfuel ncand gfuel with
    | .crash => .crash
    | .spin => .spin
    | .ok q =>
      let p := 2 * q + 1
      if decide (10 ^ (digits - 1) ≤ p) && decide (p < 10 ^ digits) &&
          sieve_check p && pp p then
        match dp p with
        | .crash => .crash
        | .spin => .spin
        | .ok true => .ok p
        | .ok false =>
          generate_safe_prime pp dp digits sA ssA obsA cfuel ncand gfuel
            (attempt + 1) fuel
      else
        generate_safe_prime pp dp digits sA ssA obsA cfuel ncand gfuel
          (attempt + 1) fuel

/-! ### Helper lemmas -/

theorem genCandidateLoop_ok {lower upper : Nat} (hlt : lower < upper)
    (s : Nat → Nat) :
    ∀ fuel i r j, genCandidateLoop lower upper s i fuel = .ok (r, j) →
      r % 2 = 1 ∧ lower ≤ r ∧ r < upper := by
  intro fuel
  induction fuel with
  | zero => intro i r j h; simp [genCandidateLoop] at h
  | succ n ih =>
    intro i r j h
    rw [genCandidateLoop] at h
    have hnum : lower + s i % (upper - lower) < upper := by
      have := Nat.mod_lt (s i) (y := upper - lower) (by omega)
      omega
    by_cases he : (lower + s i % (upper - lower)) % 2 = 0
    · rw [if_pos he] at h
      by_cases hub : lower + s i % (upper - lower) + 1 < upper
      · rw [if_pos hub] at h
        simp only [Outcome.ok.injEq, Prod.mk.injEq] at h
        omega
      · rw [if_neg hub] at h
        exact ih (i + 1) r j h
    · rw [if_neg he] at h
      simp only [Outcome.ok.injEq, Prod.mk.injEq] at h
      omega

theorem generate_prime_candidate_ok {digits : Nat} (hd : digits % 2 ^ 32 ≠ 0)
    (s : Nat → Nat) (i fuel r j : Nat)
    (h : generate_prime_candidate digits s i fuel = .ok (r, j)) :
    r % 2 = 1 ∧ 10 ^ (digits % 2 ^ 32 - 1) ≤ r ∧ r < 10 ^ (digits % 2 ^ 32) := by
  rw [generate_prime_candidate, if_neg hd] at h
  exact genCandidateLoop_ok
    (Nat.pow_lt_pow_right (by norm_num)
      (Nat.sub_lt (Nat.pos_of_ne_zero hd) Nat.one_pos))
    s fuel i r j h

theorem generate_prime_candidate_ok_small {digits : Nat} (h1 : 1 ≤ digits)
    (h2 : digits < 2 ^ 32) (s : Nat → Nat) (i fuel r j : Nat)
    (h : generate_prime_candidate digits s i fuel = .ok (r, j)) :
    r % 2 = 1 ∧ 10 ^ (digits - 1) ≤ r ∧ r < 10 ^ digits := by
  have hmod : digits % 2 ^ 32 = digits := Nat.mod_eq_of_lt h2
  have hne : digits % 2 ^ 32 ≠ 0 := by rw [hmod]; omega
  have hres := generate_prime_candidate_ok hne s i fuel r j h
  rwa [hmod] at hres

theorem digits_len_of_range {digits r : Nat} (hd : 1 ≤ digits)
    (h1 : 10 ^ (digits - 1) ≤ r) (h2 : r < 10 ^ digits) :
    (Nat.digits 10 r).length = digits := by
  have hpos : 0 < 10 ^ (digits - 1) := Nat.pow_pos (by norm_num)
  have hr : r ≠ 0 := by omega
  rw [Nat.digits_len 10 r (by norm_num) hr]
  have hlog : Nat.log 10 r = digits - 1 := by
    apply Nat.log_eq_of_pow_le_of_lt_pow h1
    have : digits - 1 + 1 = digits := by omega
    rw [this]; exact h2
  omega

theorem seq_ok (pp : Nat → Bool) (dp : Nat → Outcome Bool) (digits : Nat)
    (s : Nat → Nat) (cfuel : Nat) :
    ∀ fuel i r,
      gen_rand_large_prime_sequential pp dp digits s cfuel i fuel = .ok r →
      sieve_check r = true ∧ pp r = true ∧ dp r = .ok true ∧
        ∃ i2 j, generate_prime_candidate digits s i2 cfuel = .ok (r, j) := by
  intro fuel
  induction fuel with
  | zero => intro i r h; simp [gen_rand_large_prime_sequential] at h
  | succ n ih =>
    intro i r h
    rw [gen_rand_large_prime_sequential] at h
    rcases hg : generate_prime_candidate digits s i cfuel with cj | _ | _ <;>
      rw [hg] at h
    · obtain ⟨c, j⟩ := cj
      simp only at h
      by_cases hs : sieve_check c
      · rw [if_pos hs] at h
        by_cases hp : pp c
        · rw [if_pos hp] at h
          rcases hd : dp c with b | _ | _ <;> rw [hd] at h
          · cases b
            · exact ih j r h
            · simp only [Outcome.ok.injEq] at h
              subst h
              exact ⟨hs, hp, hd, i, j, hg⟩
          · simp at h
          · simp at h
        · rw [if_neg hp] at h
          exact ih j r h
      · rw [if_neg hs] at h
        exact ih j r h
    · simp at h
    · simp at h

theorem worker_map_ok (pp : Nat → Bool) (dp : Nat → Outcome Bool) (o : Bool)
    (c r : Nat) (h : (worker_map pp dp o c).1 = .ok (some r)) :
    r = c ∧ pp c = true ∧ dp c = .ok true := by
  rw [worker_map] at h
  cases o
  · simp only [Bool.false_eq_true, if_false] at h
    by_cases hp : pp c
    · rw [if_pos hp] at h
      rcases hd : dp c with b | _ | _ <;> rw [hd] at h <;> simp only at h
      · cases b
        · simp at h
        · simp only [Outcome.ok.injEq, Option.some.injEq] at h
          exact ⟨h.symm, hp, rfl⟩
      · simp at h
      · simp at h
    · rw [if_neg hp] at h
      simp at h
  · simp at h

theorem find_ok (pp : Nat → Bool) (dp : Nat → Outcome Bool)
    (obs : Nat → Bool) :
    ∀ l t r, find_map_first pp dp obs t l = .ok (some r) →
      r ∈ l ∧ pp r = true ∧ dp r = .ok true := by
  intro l
  induction l with
  | nil => intro t r h; simp [find_map_first] at h
  | cons c cs ih =>
    intro t r h
    rw [find_map_first] at h
    rcases hw : (worker_map pp dp (obs t) c).1 with o | _ | _ <;> rw [hw] at h
    · rcases o with _ | x
      · simp only at h
        obtain ⟨hm, hp, hd⟩ := ih (t + 1) r h
        exact ⟨List.mem_cons_of_mem _ hm, hp, hd⟩
      · simp only [Outcome.ok.injEq, Option.some.injEq] at h
        subst h
        obtain ⟨hrc, hp, hd⟩ := worker_map_ok pp dp (obs t) c x hw
        subst hrc
        exact ⟨List.mem_cons_self _ _, hp, hd⟩
    · simp at h
    · simp at h

theorem collect_mem (digits : Nat) (ss : Nat → Nat → Nat) (cfuel : Nat) :
    ∀ n l, collect_candidates digits ss cfuel n = .ok l →
      ∀ c ∈ l, ∃ k j,
        generate_prime_candidate digits (ss k) 0 cfuel = .ok (c, j) := by
  intro n
  induction n with
  | zero =>
    intro l h c hc
    simp only [collect_candidates, Outcome.ok.injEq] at h
    subst h
    simp at hc
  | succ k ih =>
    intro l h c hc
    rw [collect_candidates] at h
    rcases hg : generate_prime_candidate digits (ss k) 0 cfuel with cj | _ | _ <;>
      rw [hg] at h
    · obtain ⟨c0, j0⟩ := cj
      simp only at h
      rcases hrest : collect_candidates digits ss cfuel k with l0 | _ | _ <;>
        rw [hrest] at h
      · simp only [Outcome.ok.injEq] at h
        subst h
        rcases List.mem_cons.mp hc with hc0 | hmem
        · subst hc0
          exact ⟨k, j0, hg⟩
        · exact ih l0 hrest c hmem
      · simp at h
      · simp at h
    · simp at h
    · simp at h

theorem par_ok (pp : Nat → Bool) (dp : Nat → Outcome Bool) (digits : Nat)
    (ss : Nat → Nat → Nat → Nat) (obsR : Nat → Nat → Bool)
    (cfuel ncand : Nat) :
    ∀ fuel flag round r trace fl,
      gen_rand_large_prime_parallel pp dp digits ss obsR cfuel ncand flag
        round fuel = (.ok r, trace, fl) →
      sieve_check r = true ∧ pp r = true ∧ dp r = .ok true ∧
        ∃ rd k j,
          generate_prime_candidate digits (ss rd k) 0 cfuel = .ok (r, j) := by
  intro fuel
  induction fuel with
  | zero =>
    intro flag round r trace fl h
    simp [gen_rand_large_prime_parallel] at h
  | succ n ih =>
    intro flag round r trace fl h
    rw [gen_rand_large_prime_parallel] at h
    rcases hc : collect_candidates digits (ss round) cfuel ncand
        with cands | _ | _ <;> rw [hc] at h
    · simp only at h
      rcases hf : find_map_first pp dp (obsR round) 0
          (cands.filter sieve_check) with o | _ | _ <;> rw [hf] at h
      · rcases o with _ | r0
        · simp only at h
          rcases hrec : gen_rand_large_prime_parallel pp dp digits ss obsR
              cfuel ncand false (round + 1) n with ⟨res, tr2, fl2⟩
          rw [hrec] at h
          simp only [Prod.mk.injEq] at h
          obtain ⟨hres, -, -⟩ := h
          subst hres
          exact ih false (round + 1) r tr2 fl2 hrec
        · simp only [Prod.mk.injEq, Outcome.ok.injEq] at h
          obtain ⟨hr0, -, -⟩ := h
          subst hr0
          obtain ⟨hm, hp, hd⟩ := find_ok pp dp (obsR round) _ 0 r0 hf
          obtain ⟨hmc, hs⟩ := List.mem_filter.mp hm
          obtain ⟨k, j, hk⟩ := collect_mem digits (ss round) cfuel ncand
            cands hc r0 hmc
          exact ⟨hs, hp, hd, round, k, j, hk⟩
      · simp at h
      · simp at h
    · simp at h
    · simp at h

theorem gen_ok (pp : Nat → Bool) (dp : Nat → Outcome Bool) (digits : Nat)
    (s : Nat → Nat) (ss : Nat → Nat → Nat → Nat) (obsR : Nat → Nat → Bool)
    (cfuel ncand fuel r : Nat)
    (h : gen_rand_large_prime pp dp digits s ss obsR cfuel ncand fuel = .ok r) :
    sieve_check r = true ∧ pp r = true ∧ dp r = .ok true ∧
      ∃ t : Nat → Nat, ∃ i j,
        generate_prime_candidate digits t i cfuel = .ok (r, j) := by
  rw [gen_rand_large_prime] at h
  by_cases hdig : 50 ≤ digits
  · rw [if_pos hdig] at h
    rcases hrun : gen_rand_large_prime_parallel pp dp digits ss obsR cfuel
        ncand false 0 fuel with ⟨res, tr, fl⟩
    rw [hrun] at h
    simp only at h
    subst h
    obtain ⟨hs, hp, hd, rd, k, j, hk⟩ :=
      par_ok pp dp digits ss obsR cfuel ncand fuel false 0 r tr fl hrun
    exact ⟨hs, hp, hd, ss rd k, 0, j, hk⟩
  · rw [if_neg hdig] at h
    obtain ⟨hs, hp, hd, i2, j, hk⟩ :=
      seq_ok pp dp digits s cfuel fuel 0 r h
    exact ⟨hs, hp, hd, s, i2, j, hk⟩

theorem par_flag (pp : Nat → Bool) (dp : Nat → Outcome Bool) (digits : Nat)
    (ss : Nat → Nat → Nat → Nat) (obsR : Nat → Nat → Bool)
    (cfuel ncand : Nat) :
    ∀ fuel round,
      ((gen_rand_large_prime_parallel pp dp digits ss obsR cfuel ncand false
        round fuel).2.1.all fun b => b == false) = true ∧
      (gen_rand_large_prime_parallel pp dp digits ss obsR cfuel ncand false
        round fuel).2.2 = false := by
  intro fuel
  induction fuel with
  | zero => intro round; simp [gen_rand_large_prime_parallel]
  | succ n ih =>
    intro round
    rw [gen_rand_large_prime_parallel]
    rcases collect_candidates digits (ss round) cfuel ncand
        with cands | _ | _ <;> simp only
    · rcases find_map_first pp dp (obsR round) 0 (cands.filter sieve_check)
          with o | _ | _
      · rcases o with _ | r0
        · rcases hrec : gen_rand_large_prime_parallel pp dp digits ss obsR
              cfuel ncand false (round + 1) n with ⟨res, tr2, fl2⟩
          have := ih (round + 1)
          rw [hrec] at this
          simp only at this ⊢
          simpa using this
        · simp
      · simp
      · simp
    · simp
    · simp


/-! ### Claim theorems -/

/-- C1 counterexample: for `d = 2^32 + 10` the `usize → u32` cast in the
candidate sampler truncates the digit count.  The generator (dispatching to
the parallel variant, since `d ≥ 50`) returns the 10-digit prime
`1000000007`, not a value with `2^32 + 10` decimal digits, so the original
claim fails at this digit count. -/
theorem gen_wrap_counterexample :
    gen_rand_large_prime (fun _ => true) (fun _ => .ok true) (2 ^ 32 + 10)
      (fun _ => 0) (fun _ _ _ => 7) (fun _ _ => false) 1 1 1 =
      .ok 1000000007 ∧
    (Nat.digits 10 1000000007).length = 10 ∧ (10 : Nat) ≠ 2 ^ 32 + 10 :=
  ⟨by decide, digits_len_of_range (by norm_num) (by norm_num) (by norm_num),
   by norm_num⟩

/-- C1 amended: for every digit count `d` with `1 ≤ d < 2^32` (larger
requests are truncated by the sampler's `usize → u32` cast), any value
returned by `gen_rand_large_prime` — whether it dispatched to the
sequential or the parallel variant — has exactly `d` decimal digits, is
odd, and has passed the small-prime sieve, the probabilistic certifier
(`pp`) and the deterministic certifier (`dp`), which the code applies in
that order. -/
theorem gen_rand_large_prime_certified (pp : Nat → Bool)
    (dp : Nat → Outcome Bool) (digits : Nat) (s : Nat → Nat)
    (ss : Nat → Nat → Nat → Nat) (obsR : Nat → Nat → Bool)
    (cfuel ncand fuel r : Nat) (hd : 1 ≤ digits) (hd32 : digits < 2 ^ 32)
    (h : gen_rand_large_prime pp dp digits s ss obsR cfuel ncand fuel = .ok r) :
    (Nat.digits 10 r).length = digits ∧ r % 2 = 1 ∧
      sieve_check r = true ∧ pp r = true ∧ dp r = .ok true := by
  obtain ⟨hs, hp, hdet, t, i, j, hk⟩ :=
    gen_ok pp dp digits s ss obsR cfuel ncand fuel r h
  obtain ⟨hodd, h1, h2⟩ :=
    generate_prime_candidate_ok_small hd hd32 t i cfuel r j hk
  exact ⟨digits_len_of_range hd h1 h2, hodd, hs, hp, hdet⟩

/-- Witness for C1: a concrete sequential run with `d = 1` returning `1`. -/
theorem gen_rand_large_prime_certified_witness :
    1 ≤ 1 ∧ 1 < 2 ^ 32 ∧
    ((Nat.digits 10 1).length = 1 ∧ 1 % 2 = 1 ∧ sieve_check 1 = true ∧
      (fun _ : Nat => true) 1 = true ∧
      (fun _ : Nat => (Outcome.ok true : Outcome Bool)) 1 = .ok true) :=
  ⟨le_refl 1, by norm_num,
   gen_rand_large_prime_certified (fun _ => true) (fun _ => .ok true) 1
     (fun _ => 0) (fun _ _ _ => 0) (fun _ _ => false) 1 1 1 1 (le_refl 1)
     (by norm_num) (by decide)⟩

/-- C2 counterexample: at `d = 2^32 + 10` the sampler's `usize → u32` cast
wraps the digit count to 10: it returns `10^9 + 1`, a 10-digit value lying
below `10^(d-1)`, so the original "for every d ≥ 1" range claim fails. -/
theorem candidate_wrap_counterexample :
    generate_prime_candidate (2 ^ 32 + 10) (fun _ => 0) 0 1 =
      .ok (1000000001, 1) ∧
    (Nat.digits 10 1000000001).length = 10 ∧ (10 : Nat) ≠ 2 ^ 32 + 10 ∧
    1000000001 < 10 ^ (2 ^ 32 + 10 - 1) :=
  ⟨by decide, digits_len_of_range (by norm_num) (by norm_num) (by norm_num),
   by norm_num,
   lt_of_lt_of_le (by norm_num : (1000000001 : Nat) < 10 ^ 10)
     (Nat.pow_le_pow_right (by norm_num) (by norm_num))⟩

/-- C2 amended: for every `d` with `1 ≤ d < 2^32` (larger requests are
truncated by the `usize → u32` cast), `generate_prime_candidate` only
returns odd integers in `[10^(d-1), 10^d)` (exactly `d` decimal digits): an
even draw is incremented by one, and when the increment would reach `10^d`
the draw is discarded and the loop resamples (the stated equation on its
loop `genCandidateLoop`), so no returned value lies outside the range. -/
theorem generate_prime_candidate_range_odd (digits : Nat) (s : Nat → Nat)
    (i fuel r j lower upper i2 fuel2 : Nat) (hd : 1 ≤ digits)
    (hd32 : digits < 2 ^ 32)
    (h : generate_prime_candidate digits s i fuel = .ok (r, j))
    (he : (lower + s i2 % (upper - lower)) % 2 = 0)
    (hu : ¬ (lower + s i2 % (upper - lower) + 1 < upper)) :
    (r % 2 = 1 ∧ 10 ^ (digits - 1) ≤ r ∧ r < 10 ^ digits ∧
      (Nat.digits 10 r).length = digits) ∧
    genCandidateLoop lower upper s i2 (fuel2 + 1) =
      genCandidateLoop lower upper s (i2 + 1) fuel2 := by
  obtain ⟨hodd, h1, h2⟩ :=
    generate_prime_candidate_ok_small hd hd32 s i fuel r j h
  refine ⟨⟨hodd, h1, h2, digits_len_of_range hd h1 h2⟩, ?_⟩
  simp only [genCandidateLoop]
  rw [if_pos he, if_neg hu]

/-- Witness for C2: with `d = 1` and a zero stream the sampler returns `1`;
the resample equation is exercised at `lower = 4`, `upper = 5`. -/
theorem generate_prime_candidate_range_odd_witness :
    1 ≤ 1 ∧ 1 < 2 ^ 32 ∧
    (4 + (0 : Nat) % (5 - 4)) % 2 = 0 ∧ ¬ (4 + (0 : Nat) % (5 - 4) + 1 < 5) ∧
    ((1 % 2 = 1 ∧ 10 ^ (1 - 1) ≤ 1 ∧ 1 < 10 ^ 1 ∧
      (Nat.digits 10 1).length = 1) ∧
     genCandidateLoop 4 5 (fun _ => 0) 0 (0 + 1) =
       genCandidateLoop 4 5 (fun _ => 0) 1 0) :=
  ⟨le_refl 1, by norm_num, by decide, by decide,
   generate_prime_candidate_range_odd 1 (fun _ => 0) 0 1 1 1 4 5 0 0
     (le_refl 1) (by norm_num) (by decide) (by decide) (by decide)⟩

/-- C3 counterexample: the deterministic-oracle wrapper does NOT treat
failures as inconclusive/retriable.  Malformed gp output yields the same
verdict (`.ok false`) as a genuine composite verdict (output `"0"`), i.e. it
is silently interpreted as composite; and an unlaunchable gp crashes the
whole process (`.crash`) instead of discarding the candidate and
continuing. -/
theorem oracle_failure_counterexample :
    (deterministic_prime_check (fun _ => some "gp: not found") 91).1 =
      .ok false ∧
    (deterministic_prime_check (fun _ => some "0") 91).1 = .ok false ∧
    (deterministic_prime_check (fun _ => none) 91).1 = .crash := by decide

/-- C3 amended: an oracle launch failure panics the whole program (it is not
recovered and the search does not continue), and any gp output whose trimmed
form differs from `"1"` — malformed output included — is silently treated as
a composite verdict, upon which the sequential loop discards the candidate
and continues with the next one. -/
theorem oracle_failure_amended (gp : Nat → Option String) (n : Nat) :
    (∀ out, gp n = some out → rustTrim out ≠ "1" →
      (deterministic_prime_check gp n).1 = .ok false) ∧
    (gp n = none → (deterministic_prime_check gp n).1 = .crash) ∧
    (∀ (pp : Nat → Bool) (dp : Nat → Outcome Bool) (digits : Nat)
        (s : Nat → Nat) (cfuel i j c fuel : Nat),
      generate_prime_candidate digits s i cfuel = .ok (c, j) →
      sieve_check c = true → pp c = true → dp c = .ok false →
      gen_rand_large_prime_sequential pp dp digits s cfuel i (fuel + 1) =
        gen_rand_large_prime_sequential pp dp digits s cfuel j fuel) := by
  refine ⟨?_, ?_, ?_⟩
  · intro out hout hne
    rw [deterministic_prime_check, hout]
    simp [hne]
  · intro hnone
    rw [deterministic_prime_check, hnone]
  · intro pp dp digits s cfuel i j c fuel hg hs hp hdp
    rw [gen_rand_large_prime_sequential, hg]
    simp only [hs, if_true, hp, hdp]

/-- Witness for C3's amended statement at concrete oracles and a concrete
sequential step. -/
theorem oracle_failure_amended_witness :
    rustTrim "Error" ≠ "1" ∧
    (deterministic_prime_check (fun _ => some "Error") 15).1 = .ok false ∧
    (deterministic_prime_check (fun _ => none) 15).1 = .crash ∧
    gen_rand_large_prime_sequential (fun _ => true) (fun _ => .ok false) 1
        (fun _ => 0) 1 0 1 =
      gen_rand_large_prime_sequential (fun _ => true) (fun _ => .ok false) 1
        (fun _ => 0) 1 1 0 :=
  ⟨by decide,
   (oracle_failure_amended (fun _ => some "Error") 15).1 "Error" rfl
     (by decide),
   (oracle_failure_amended (fun _ => none) 15).2.1 rfl,
   (oracle_failure_amended (fun _ => none) 15).2.2 (fun _ => true)
     (fun _ => .ok false) 1 (fun _ => 0) 1 0 1 1 0 (by decide) (by decide)
     rfl rfl⟩

/-- C4 counterexample: the table's first entry is 2, yet the nontrivial
multiple `2 * 2 = 4` of 2 passes the sieve, because the loop runs over
`SMALL_PRIMES.iter().skip(1)`. -/
theorem sieve_even_multiple_counterexample :
    2 ∈ SMALL_PRIMES ∧ 2 * 2 ≠ 2 ∧ sieve_check (2 * 2) = true := by decide

set_option maxRecDepth 40000 in
/-- C4 amended: for every prime `q` in the small-prime table OTHER THAN its
first entry 2 (the sieve skips 2), every nontrivial multiple of `q` is
rejected, and every member of the table itself passes the filter. -/
theorem sieve_check_amended :
    (∀ q ∈ SMALL_PRIMES.drop 1, ∀ m : Nat, m ≠ 1 →
      sieve_check (m * q) = false) ∧
    (∀ q ∈ SMALL_PRIMES, sieve_check q = true) := by
  constructor
  · intro q hq m hm
    have hq2 : 2 ≤ q := by
      have hall : (SMALL_PRIMES.drop 1).all (fun p => decide (2 ≤ p)) = true :=
        by decide
      simpa using List.all_eq_true.mp hall q hq
    by_contra hT
    rw [Bool.not_eq_false, sieve_check] at hT
    have hmem := List.all_eq_true.mp hT q hq
    simp only [Nat.mul_mod_left, beq_self_eq_true, Bool.true_and,
      Bool.not_eq_eq_eq_not, Bool.not_true, bne_eq_false_iff_eq] at hmem
    have h1 : m * q = 1 * q := by rw [one_mul]; exact hmem
    exact hm (Nat.eq_of_mul_eq_mul_right (by omega) h1)
  · intro q hq
    have hall : SMALL_PRIMES.all sieve_check = true := by decide
    exact List.all_eq_true.mp hall q hq

/-- Witness for C4's amended statement: `2 * 3 = 6` is rejected, and the
table member 2 passes. -/
theorem sieve_check_amended_witness :
    sieve_check (2 * 3) = false ∧ sieve_check 2 = true :=
  ⟨sieve_check_amended.1 3 (by decide) 2 (by decide),
   sieve_check_amended.2 2 (by decide)⟩

/-- C5: in a parallel round (modelled by `find_map_first` over the sieved
candidates, with `obs t` the cancellation-flag value that the worker on
candidate `t` observed — quantifying over all `obs` covers every possible
Relaxed-memory interleaving), at most one worker's candidate is committed as
the round's result: the committed list is exactly `[r]`, of length ≤ 1, and
`r` passed full certification; and a worker that observes the flag set
abandons its in-flight candidate, publishing nothing and starting no
certification work (second component `false`). -/
theorem parallel_commit_unique (pp : Nat → Bool) (dp : Nat → Outcome Bool)
    (obs : Nat → Bool) (l : List Nat) (t c r : Nat)
    (hr : find_map_first pp dp obs 0 l = .ok (some r))
    (ho : obs t = true) :
    commits (find_map_first pp dp obs 0 l) = [r] ∧
    (commits (find_map_first pp dp obs 0 l)).length ≤ 1 ∧
    r ∈ l ∧ pp r = true ∧ dp r = .ok true ∧
    worker_map pp dp (obs t) c = (.ok none, false) := by
  obtain ⟨hm, hp, hdet⟩ := find_ok pp dp obs l 0 r hr
  refine ⟨by rw [hr]; rfl, by rw [hr]; simp [commits], hm, hp, hdet, ?_⟩
  rw [ho, worker_map]
  simp

/-- Witness for C5: two sieved candidates, the second is certified and
committed; a worker observing the flag (position 2) does nothing. -/
theorem parallel_commit_unique_witness :
    ((fun t : Nat => t == 2) 2) = true ∧
    (commits (find_map_first (fun n => n == 7) (fun _ => .ok true)
      (fun t => t == 2) 0 [4, 7]) = [7] ∧
    (commits (find_map_first (fun n => n == 7) (fun _ => .ok true)
      (fun t => t == 2) 0 [4, 7])).length ≤ 1 ∧
    7 ∈ [4, 7] ∧ (fun n : Nat => n == 7) 7 = true ∧
    (fun _ : Nat => (Outcome.ok true : Outcome Bool)) 7 = .ok true ∧
    worker_map (fun n => n == 7) (fun _ => .ok true)
      ((fun t : Nat => t == 2) 2) 9 = (.ok none, false)) :=
  ⟨by decide,
   parallel_commit_unique (fun n => n == 7) (fun _ => .ok true)
     (fun t => t == 2) [4, 7] 2 9 7 (by decide) (by decide)⟩

/-- C6 counterexample: requesting `digit_count = 0` does not surface an
`InvalidSize` error (the code has no error channel at all): the `u32`
subtraction in `generate_prime_candidate` makes the call panic, modelled by
`.crash`, contradicting "it does not panic". -/
theorem zero_digits_counterexample :
    gen_rand_large_prime (fun _ => true) (fun _ => .ok true) 0 (fun _ => 0)
      (fun _ _ _ => 0) (fun _ _ => false) 1 1 1 = .crash := by decide

/-- C6 amended: when `digit_count = 0` the generator panics (`u32` underflow
computing `10^(d-1)` in a debug build, an empty sampling range in release)
before any candidate is sampled; no error value is surfaced to the caller. -/
theorem zero_digits_amended (pp : Nat → Bool) (dp : Nat → Outcome Bool)
    (s : Nat → Nat) (ss : Nat → Nat → Nat → Nat) (obsR : Nat → Nat → Bool)
    (cfuel ncand fuel : Nat) (hf : 0 < fuel) :
    gen_rand_large_prime pp dp 0 s ss obsR cfuel ncand fuel = .crash := by
  obtain ⟨n, rfl⟩ : ∃ n, fuel = n + 1 := ⟨fuel - 1, by omega⟩
  rw [gen_rand_large_prime, if_neg (by omega), gen_rand_large_prime_sequential,
    generate_prime_candidate, if_pos (show 0 % 2 ^ 32 = 0 by norm_num)]

/-- Witness for C6's amended statement. -/
theorem zero_digits_amended_witness :
    0 < 1 ∧
    gen_rand_large_prime (fun _ => false) (fun _ => .ok false) 0 (fun _ => 1)
      (fun _ _ _ => 1) (fun _ _ => true) 0 0 1 = .crash :=
  ⟨Nat.zero_lt_one,
   zero_digits_amended (fun _ => false) (fun _ => .ok false) (fun _ => 1)
     (fun _ _ _ => 1) (fun _ _ => true) 0 0 1 Nat.zero_lt_one⟩

theorem safe_ok (pp : Nat → Bool) (dp : Nat → Outcome Bool) (digits : Nat)
    (sA : Nat → Nat → Nat) (ssA : Nat → Nat → Nat → Nat → Nat)
    (obsA : Nat → Nat → Nat → Bool) (cfuel ncand gfuel : Nat)
    (hdp : ∀ n, dp n = .ok true → Nat.Prime n) :
    ∀ fuel attempt p,
      generate_safe_prime pp dp digits sA ssA obsA cfuel ncand gfuel attempt
        fuel = .ok p →
      10 ^ (digits - 1) ≤ p ∧ p < 10 ^ digits ∧ Nat.Prime p ∧
        Nat.Prime ((p - 1) / 2) := by
  intro fuel
  induction fuel with
  | zero => intro attempt p h; simp [generate_safe_prime] at h
  | succ n ih =>
    intro attempt p h
    rw [generate_safe_prime] at h
    rcases hq : gen_rand_large_prime pp dp (digits - 1) (sA attempt)
        (ssA attempt) (obsA attempt) cfuel ncand gfuel with q | _ | _ <;>
      rw [hq] at h
    · simp only at h
      by_cases hcond : (decide (10 ^ (digits - 1) ≤ 2 * q + 1) &&
          decide (2 * q + 1 < 10 ^ digits) && sieve_check (2 * q + 1) &&
          pp (2 * q + 1)) = true
      · rw [if_pos hcond] at h
        rcases hdq : dp (2 * q + 1) with b | _ | _ <;> rw [hdq] at h
        · cases b
          · exact ih (attempt + 1) p h
          · simp only [Outcome.ok.injEq] at h
            subst h
            simp only [Bool.and_eq_true, decide_eq_true_eq] at hcond
            obtain ⟨⟨⟨h1, h2⟩, -⟩, -⟩ := hcond
            have hq_det : dp q = .ok true :=
              (gen_ok pp dp (digits - 1) (sA attempt) (ssA attempt)
                (obsA attempt) cfuel ncand gfuel q hq).2.2.1
            have hhalf : (2 * q + 1 - 1) / 2 = q := by omega
            exact ⟨h1, h2, hdp _ hdq, by rw [hhalf]; exact hdp _ hq_det⟩
        · simp at h
        · simp at h
      · rw [if_neg hcond] at h
        exact ih (attempt + 1) p h
    · simp at h
    · simp at h

/-- C7: any accepted result `p` of the safe-prime constructor for `d ≥ 2`
has exactly `d` decimal digits, is prime, and `(p-1)/2` is prime, provided
the deterministic oracle is sound (`dp n = .ok true → n` prime): `p = 2q+1`
is derived from a fully certified prime `q` of `d-1` digits, and the whole
derivation is retried whenever the digit-count check or any certification
stage fails.  (The safe-prime constructor is spec-modelled: it does not
appear under `src/`.) -/
theorem generate_safe_prime_spec (pp : Nat → Bool) (dp : Nat → Outcome Bool)
    (digits : Nat) (sA : Nat → Nat → Nat) (ssA : Nat → Nat → Nat → Nat → Nat)
    (obsA : Nat → Nat → Nat → Bool) (cfuel ncand gfuel attempt fuel p : Nat)
    (hd : 2 ≤ digits) (hdp : ∀ n, dp n = .ok true → Nat.Prime n)
    (h : generate_safe_prime pp dp digits sA ssA obsA cfuel ncand gfuel
      attempt fuel = .ok p) :
    (Nat.digits 10 p).length = digits ∧ Nat.Prime p ∧
      Nat.Prime ((p - 1) / 2) := by
  obtain ⟨h1, h2, hp, hq⟩ := safe_ok pp dp digits sA ssA obsA cfuel ncand
    gfuel hdp fuel attempt p h
  exact ⟨digits_len_of_range (by omega) h1 h2, hp, hq⟩

/-- Witness for C7: a concrete run with `d = 3` producing the safe prime
`p = 107` from `q = 53` (the spec's own example). -/
theorem generate_safe_prime_spec_witness :
    2 ≤ 3 ∧
    ((Nat.digits 10 107).length = 3 ∧ Nat.Prime 107 ∧
      Nat.Prime ((107 - 1) / 2)) :=
  ⟨by norm_num,
   generate_safe_prime_spec (fun m => decide (m = 53 ∨ m = 107))
     (fun m => .ok (decide (m = 53 ∨ m = 107))) 3 (fun _ _ => 43)
     (fun _ _ _ _ => 0) (fun _ _ _ => false) 1 1 1 0 1 107 (by norm_num)
     (by
       intro n hn
       simp only [Outcome.ok.injEq, decide_eq_true_eq] at hn
       rcases hn with rfl | rfl <;> norm_num)
     (by decide)⟩

/-- C8 counterexample: when the gp process cannot be launched, the `.expect`
panic fires before `fs::remove_file`, so the temporary script file
persists — the claim that it is removed on every outcome is false. -/
theorem temp_file_counterexample :
    (deterministic_prime_check (fun _ => none) 97).2 = true ∧
    (deterministic_prime_check (fun _ => none) 97).1 = .crash := by decide

/-- C8 amended: the temporary script is removed whenever the gp process
actually ran (whatever it printed); when the process cannot be launched the
program panics and the temporary file is left behind. -/
theorem temp_file_amended (gp : Nat → Option String) (n : Nat) :
    (∀ out, gp n = some out → (deterministic_prime_check gp n).2 = false) ∧
    (gp n = none → deterministic_prime_check gp n = (.crash, true)) := by
  constructor
  · intro out hout
    rw [deterministic_prime_check, hout]
  · intro hnone
    rw [deterministic_prime_check, hnone]

/-- Witness for C8's amended statement. -/
theorem temp_file_amended_witness :
    (deterministic_prime_check (fun _ => some "1") 5).2 = false ∧
    deterministic_prime_check (fun _ => none) 5 = (.crash, true) :=
  ⟨(temp_file_amended (fun _ => some "1") 5).1 "1" rfl,
   (temp_file_amended (fun _ => none) 5).2 rfl⟩

/-- C9: the shared cancellation flag starts unset (`AtomicBool::new(false)`)
and the coordinator stores `false` again after every round — both after a
round in which a worker succeeded (just before returning the prime) and
after a round in which nobody did (just before the next round).  Hence the
flag value recorded at the start of every executed round is `false`, and the
final flag value is `false`, so no round `N+1` worker can load a flag value
set during round `N`. -/
theorem parallel_flag_reset (pp : Nat → Bool) (dp : Nat → Outcome Bool)
    (digits : Nat) (ss : Nat → Nat → Nat → Nat) (obsR : Nat → Nat → Bool)
    (cfuel ncand fuel : Nat) :
    ((gen_rand_large_prime_parallel pp dp digits ss obsR cfuel ncand false 0
      fuel).2.1.all fun b => b == false) = true ∧
    (gen_rand_large_prime_parallel pp dp digits ss obsR cfuel ncand false 0
      fuel).2.2 = false :=
  par_flag pp dp digits ss obsR cfuel ncand fuel 0

/-- C10: the deterministic-certifier wrapper returns the `prime` verdict
exactly when the trimmed stdout of the spawned gp process equals `"1"`; any
other output is returned as the `composite` verdict (`.ok false`); and a
failure to launch gp aborts the whole program (`.crash`), producing no
verdict at all. -/
theorem deterministic_verdict_spec (gp : Nat → Option String) (n : Nat) :
    ((deterministic_prime_check gp n).1 = .ok true ↔
      ∃ out, gp n = some out ∧ rustTrim out = "1") ∧
    (∀ out, gp n = some out → rustTrim out ≠ "1" →
      (deterministic_prime_check gp n).1 = .ok false) ∧
    (gp n = none → (deterministic_prime_check gp n).1 = .crash) := by
  rcases hgp : gp n with _ | out <;>
    simp [deterministic_prime_check, hgp]

/-- Witness for C10: whitespace-padded output `" 1\n"` trims to `"1"` and
yields the `prime` verdict. -/
theorem deterministic_verdict_spec_witness :
    rustTrim " 1\n" = "1" ∧
    (deterministic_prime_check (fun _ => some " 1\n") 7).1 = .ok true :=
  ⟨by decide,
   (deterministic_verdict_spec (fun _ => some " 1\n") 7).1.mpr
     ⟨" 1\n", rfl, by decide⟩⟩
